import Mathlib

/-!
Shallow embedding of the matchmaking core of the meetup chat application
(`src/server.ts`, `src/backend/unpaired_users.do.ts`).

The embedded parts:
* the per-session state object (`Session`: `state` field plus the optional
  `partner` field), its initial value and the `setState` calls that the code
  performs;
* the `UnpairedUsersDO` registry (a mapping from user name to a join
  timestamp) with `add` / `remove` / `list`;
* `Chat.onStateUpdate`, the registry-synchronization side effect of every
  state change;
* `Chat.searchPartner`, the random partner draw (`for` loop with
  `Math.min(userIDs.length, 50)` bound, `splice` removal, self-exclusion)
  and the two `setState` calls it performs on success;
* `Chat.onChatMessage`, the inbound-message dispatcher (early return on
  `sentFromServer`, `switch` over the three states — including the missing
  `return` in the `waiting_for_partner` case, which falls through into the
  `chatting` case);
* `Chat.sendChatMessage`, which stores a message flagged `sentFromServer`;
* `Chat.extractIntroductionData` / `Chat.introductionComplete`, with the
  zod `safeParse` of the partial extraction output modelled field-by-field
  (the LLM collaborator itself is external; its output on the spec's `"hi"`
  scenario is modelled from the spec).

Randomness (`Math.random`) is modelled adversarially as an arbitrary stream
`rands : Nat → Nat`, used modulo the current array length — every sequence of
uniform draws corresponds to some such stream.
-/

namespace Meetup

/-- The three values of the `state` discriminant of the agent state
(`"introduction" | "waiting_for_partner" | "chatting"`). -/
inductive Phase where
  | introduction
  | waiting_for_partner
  | chatting
deriving DecidableEq

/-- A session's persisted state object: the `state` discriminant together
with the optional `partner` field. The code only ever sets `partner` in the
`chatting` `setState` calls; elsewhere the field is absent (`none`). -/
structure Session where
  state : Phase
  partner : Option String
deriving DecidableEq

/-- `Chat.initialState = { state: "introduction" }` (no `partner` field). -/
def initialState : Session := ⟨Phase.introduction, none⟩

/-! ## The Unpaired Registry (`UnpairedUsersDO`)

`ctx.storage` maps usernames to `{ timestamp }` records; we model it as an
association list from username to timestamp. `add` is an upsert
(`storage.put` overwrites), `remove` is `storage.delete`, `list` returns the
keys. Key order in Durable Object storage is not significant for the claims
(the spec declares the snapshot order insignificant), so the upsert places
the fresh entry at the head. -/

/-- The registry: a mapping from user name to join timestamp. -/
abbrev Registry := List (String × Nat)

/-- `UnpairedUsersDO.add(username)`: upsert with the current timestamp. -/
def regAdd (reg : Registry) (u : String) (t : Nat) : Registry :=
  (u, t) :: reg.filter (fun e => e.1 ≠ u)

/-- `UnpairedUsersDO.remove(username)`: delete the key (idempotent). -/
def regRemove (reg : Registry) (u : String) : Registry :=
  reg.filter (fun e => e.1 ≠ u)

/-- `UnpairedUsersDO.list()`: the list of stored keys. -/
def regKeys (reg : Registry) : List String :=
  reg.map Prod.fst

/-! ## The partner draw loop of `Chat.searchPartner`

```js
const userIDs = await this.unpairedUsers.list();
for (let i = 0; i < Math.min(userIDs.length, 50); i++) {
  const userID = userIDs.splice(Math.floor(Math.random() * userIDs.length), 1)[0];
  if (userID != this.name) { ... return; }
}
```

The loop condition re-evaluates `userIDs.length` on every iteration, and
`splice` shrinks the array by one each time, so `i` increases while the
length decreases. We embed the loop with a fuel argument equal to the
array's length: each iteration removes exactly one element, so the current
length always equals the remaining fuel, and when the fuel reaches `0` the
length is `0` and the JS loop condition `i < Math.min(0, 50)` is false as
well — the `0`-fuel branch returning `none` coincides with the loop's own
exit. -/

/-- One draw: index `rands i % length` (the value of
`Math.floor(Math.random() * userIDs.length)`), `splice` removes it, and the
draw succeeds iff the picked id differs from the caller. The guard
`i < min ids.length 50` makes the index in range, so `List.getD` reads the
actual element. -/
def searchGo (caller : String) (rands : Nat → Nat) :
    Nat → Nat → List String → Option String
  | 0, _, _ => none
  | fuel + 1, i, ids =>
    if i < min ids.length 50 then
      let j := rands i % ids.length
      let userID := ids.getD j ""
      if userID ≠ caller then
        some userID
      else
        searchGo caller rands fuel (i + 1) (ids.eraseIdx j)
    else
      none

/-- The draw loop of `Chat.searchPartner` on a registry snapshot: the chosen
partner, or `none` when the loop exhausts its bound. -/
def searchPartner (caller : String) (rands : Nat → Nat)
    (ids : List String) : Option String :=
  searchGo caller rands ids.length 0 ids

/-- Any id returned by the draw loop differs from the caller: the success
branch is guarded by `userID != this.name`. -/
theorem searchGo_ne (caller : String) (rands : Nat → Nat) :
    ∀ (fuel i : Nat) (ids : List String) (p : String),
      searchGo caller rands fuel i ids = some p → p ≠ caller := by
  intro fuel
  induction fuel with
  | zero =>
    intro i ids p h
    simp [searchGo] at h
  | succ n ih =>
    intro i ids p h
    rw [searchGo] at h
    by_cases hc : i < min ids.length 50
    · rw [if_pos hc] at h
      by_cases he : ids.getD (rands i % ids.length) "" ≠ caller
      · rw [if_pos he] at h
        cases h
        exact he
      · rw [if_neg he] at h
        exact ih _ _ _ h
    · rw [if_neg hc] at h
      cases h

/-- C2: the Matchmaker never chooses the caller itself, for every snapshot
and every stream of random draws. -/
theorem searchPartner_no_self_pairing (caller : String) (rands : Nat → Nat)
    (ids : List String) (p : String)
    (h : searchPartner caller rands ids = some p) : p ≠ caller :=
  searchGo_ne caller rands ids.length 0 ids p h

/-- Witness for `searchPartner_no_self_pairing`: on the snapshot `["B"]`
with caller `"A"`, the draw returns `"B"`, which differs from `"A"`. -/
theorem searchPartner_no_self_pairing_witness :
    searchPartner "A" (fun _ => 0) ["B"] = some "B" ∧ ("B" : String) ≠ "A" :=
  ⟨by decide, searchPartner_no_self_pairing "A" (fun _ => 0) ["B"] "B" (by decide)⟩

/-- C4: on the snapshot `["A", "B"]` with caller `"A"`, when the first random
draw picks index `0` (the caller itself), the loop exits after a single draw
without finding a partner — although `"B"`, an identifier different from the
caller, is in the snapshot. The loop condition `i < Math.min(userIDs.length, 50)`
re-reads the length that `splice` just shrank: after one draw `i = 1` and
`userIDs.length = 1`, so the loop stops. -/
theorem searchPartner_misses_available_partner :
    searchPartner "A" (fun _ => 0) ["A", "B"] = none ∧
    "B" ∈ ["A", "B"] ∧ ("B" : String) ≠ "A" := by
  refine ⟨by decide, by decide, by decide⟩

/-! ## Registry synchronization (`Chat.onStateUpdate`)

On every state change the agent runs

```js
if (state.state == "waiting_for_partner") { this.unpairedUsers.add(this.name); }
else { this.unpairedUsers.remove(this.name); }
```

(The subsequent `chatting` branch of `onStateUpdate` emits a connection
notification into the session's own log; it does not touch the registry and
is not needed by the registry claims.) -/

/-- The registry-synchronization step of `Chat.onStateUpdate` for the
session named `u` moving to a state with discriminant `s`; `t` is the
`Date.now()` timestamp an `add` would store. -/
def stateSync (reg : Registry) (u : String) (s : Phase) (t : Nat) : Registry :=
  if s = Phase.waiting_for_partner then regAdd reg u t else regRemove reg u

theorem mem_regKeys_regRemove (reg : Registry) (u x : String) :
    x ∈ regKeys (regRemove reg u) ↔ (x ∈ regKeys reg ∧ x ≠ u) := by
  simp only [regKeys, regRemove, List.mem_map, List.mem_filter]
  constructor
  · rintro ⟨e, ⟨he, hne⟩, rfl⟩
    refine ⟨⟨e, he, rfl⟩, by simpa using hne⟩
  · rintro ⟨⟨e, he, rfl⟩, hne⟩
    exact ⟨e, ⟨he, by simpa using hne⟩, rfl⟩

theorem regRemove_idem (reg : Registry) (u : String) :
    regRemove (regRemove reg u) u = regRemove reg u := by
  simp only [regRemove]
  induction reg with
  | nil => rfl
  | cons e rest ih =>
    by_cases he : e.1 = u
    · simp [List.filter_cons, he, ih]
    · simp [List.filter_cons, he, ih]

/-- C9: after the state-synchronization step with target state `s`, the
registry contains the session's name iff `s` is `waiting_for_partner`, and
running the step twice with the same target state (with any pair of
timestamps) leaves the same registry membership as running it once. -/
theorem stateSync_membership_and_idempotence (reg : Registry) (u : String)
    (s : Phase) (t₁ t₂ : Nat) :
    (u ∈ regKeys (stateSync reg u s t₁) ↔ s = Phase.waiting_for_partner) ∧
    regKeys (stateSync (stateSync reg u s t₁) u s t₂) =
      regKeys (stateSync reg u s t₁) := by
  by_cases hs : s = Phase.waiting_for_partner
  · subst hs
    have h := regRemove_idem reg u
    simp only [regRemove] at h
    constructor
    · simp [stateSync, regAdd, regKeys]
    · simp only [stateSync, eq_self_iff_true, if_true, regAdd, regKeys]
      rw [List.filter_cons]
      simp [h]
  · constructor
    · rw [stateSync, if_neg hs]
      simp only [mem_regKeys_regRemove]
      constructor
      · rintro ⟨-, h⟩
        exact absurd rfl h
      · intro h
        exact absurd h hs
    · rw [stateSync, stateSync, if_neg hs, if_neg hs, regRemove_idem]

/-! ## The whole-system model: sessions plus the shared registry

`Sys` holds every session's state (a total map from agent name to
`Session`; `getAgentByName` creates agents on demand, so totality is
faithful) together with the shared registry. `setState` on an agent stores
the new state and triggers that agent's `onStateUpdate`, whose
registry-synchronization part is `stateSync` above. -/

/-- The global state: one `Session` per agent name, plus the registry. -/
structure Sys where
  sessions : String → Session
  registry : Registry

/-- Point update of the session map. -/
def updateSession (f : String → Session) (k : String) (v : Session) :
    String → Session :=
  fun x => if x = k then v else f x

/-- `agent.setState(s)` followed by the registry-synchronization part of the
agent's `onStateUpdate` (the connection-notification side effect of the
`chatting` branch touches only conversation logs, not `Sys`). -/
def setStateSys (sys : Sys) (who : String) (s : Session) (t : Nat) : Sys :=
  { sessions := updateSession sys.sessions who s
    registry := stateSync sys.registry who s.state t }

/-- `Chat.searchPartner` at system level for a caller named `caller`:
snapshot the registry keys, run the draw loop, and on success perform the
code's two `setState` calls — first
`otherAgent.setState({ state: "chatting", partner: this.name })`
(unconditionally), then
`this.setState({ state: "chatting", partner: userID })`. The loop performs
no writes before its first success, so factoring it into the pure draw
`searchPartner` followed by the two writes is exact. -/
def searchPartnerSys (sys : Sys) (caller : String) (rands : Nat → Nat)
    (t : Nat) : Sys :=
  match searchPartner caller rands (regKeys sys.registry) with
  | none => sys
  | some p =>
    let sys₁ := setStateSys sys p ⟨Phase.chatting, some caller⟩ t
    setStateSys sys₁ caller ⟨Phase.chatting, some p⟩ t

/-- C3: whenever the draw on the current registry snapshot chooses `p`, the
system after `searchPartner` has the caller `Chatting` with partner `p` and
`p` `Chatting` with partner the caller (mutual pairing), and the registry
keeps exactly the snapshot members other than the two paired sessions —
both of their `chatting` transitions synchronize the registry by removal. -/
theorem searchPartnerSys_pairs_mutually (sys : Sys) (caller p : String)
    (rands : Nat → Nat) (t : Nat)
    (h : searchPartner caller rands (regKeys sys.registry) = some p) :
    (searchPartnerSys sys caller rands t).sessions caller =
      ⟨Phase.chatting, some p⟩ ∧
    (searchPartnerSys sys caller rands t).sessions p =
      ⟨Phase.chatting, some caller⟩ ∧
    ∀ x : String,
      x ∈ regKeys (searchPartnerSys sys caller rands t).registry ↔
        (x ∈ regKeys sys.registry ∧ x ≠ caller ∧ x ≠ p) := by
  have hne : p ≠ caller := searchPartner_no_self_pairing caller rands _ p h
  rw [searchPartnerSys, h]
  refine ⟨?_, ?_, ?_⟩
  · simp [setStateSys, updateSession]
  · simp [setStateSys, updateSession, hne]
  · intro x
    simp only [setStateSys, stateSync]
    rw [if_neg (by decide), if_neg (by decide)]
    rw [mem_regKeys_regRemove, mem_regKeys_regRemove]
    tauto

/-- Witness for `searchPartnerSys_pairs_mutually`: the spec's §8 scenario.
Registry `{A, B, C}` (all three waiting), caller `A`, the random stream
always picks index 1, i.e. `B`: afterwards `A` and `B` are `Chatting`
partners of each other and `C` is still in the registry. -/
theorem searchPartnerSys_pairs_mutually_witness :
    (searchPartnerSys
        ⟨fun _ => ⟨Phase.waiting_for_partner, none⟩,
         [("A", 0), ("B", 1), ("C", 2)]⟩
        "A" (fun _ => 1) 3).sessions "A" = ⟨Phase.chatting, some "B"⟩ ∧
    (searchPartnerSys
        ⟨fun _ => ⟨Phase.waiting_for_partner, none⟩,
         [("A", 0), ("B", 1), ("C", 2)]⟩
        "A" (fun _ => 1) 3).sessions "B" = ⟨Phase.chatting, some "A"⟩ ∧
    "C" ∈ regKeys (searchPartnerSys
        ⟨fun _ => ⟨Phase.waiting_for_partner, none⟩,
         [("A", 0), ("B", 1), ("C", 2)]⟩
        "A" (fun _ => 1) 3).registry := by
  have h := searchPartnerSys_pairs_mutually
    ⟨fun _ => ⟨Phase.waiting_for_partner, none⟩,
     [("A", 0), ("B", 1), ("C", 2)]⟩
    "A" "B" (fun _ => 1) 3 (by decide)
  exact ⟨h.1, h.2.1, (h.2.2 "C").mpr ⟨by decide, by decide, by decide⟩⟩

/-- C1: the cross-session transition is NOT a conditional update. In the
system where `B` is already `Chatting` with `C` but a stale registry
snapshot still lists `B`, the caller `A`'s `searchPartner` draws `B` and
unconditionally overwrites `B`'s state with
`{ state: "chatting", partner: "A" }` — `otherAgent.setState` performs no
check that `B` is still `waiting_for_partner`, and no retry/exclusion path
exists in the code. -/
theorem searchPartnerSys_overwrites_claimed_partner :
    (searchPartnerSys
        ⟨updateSession (fun _ => ⟨Phase.waiting_for_partner, none⟩)
           "B" ⟨Phase.chatting, some "C"⟩,
         [("B", 0)]⟩
        "A" (fun _ => 0) 7).sessions "B" = ⟨Phase.chatting, some "A"⟩ ∧
    (updateSession (fun _ => ⟨Phase.waiting_for_partner, none⟩)
        "B" ⟨Phase.chatting, some "C"⟩) "B" = ⟨Phase.chatting, some "C"⟩ := by
  refine ⟨by decide, by decide⟩

/-! ## Messages and the inbound-message handler (`Chat.onChatMessage`)

A stored message carries the `sentFromServer` provenance flag, an id, a
role, a list of parts and a `createdAt` timestamp. `onChatMessage` looks at
the last stored message: if it is flagged `sentFromServer` it returns at
once; otherwise it dispatches on the current state. The
`waiting_for_partner` case of the `switch` has no `return`/`break` and so
falls through into the `chatting` case, which reads `this.state.partner!`
(absent — `none` — in the waiting state) and forwards the message text. -/

/-- A message role (`"user" | "assistant"`). -/
inductive Role where
  | user
  | assistant
deriving DecidableEq

/-- A message part: a text part carrying its text, or any non-text part
(whose content the handler ignores). -/
inductive Part where
  | text (s : String)
  | other
deriving DecidableEq

/-- A stored chat message. -/
structure Msg where
  sentFromServer : Bool
  id : String
  role : Role
  parts : List Part
  createdAt : Nat
deriving DecidableEq

/-- `lastMsg.parts.map(p => p.type == "text" ? p.text : "").join("")`. -/
def extractText (m : Msg) : String :=
  String.join (m.parts.map (fun p =>
    match p with
    | Part.text s => s
    | Part.other => ""))

/-- The observable actions `onChatMessage` can take:
`selfMessage` is `this.sendChatMessage(text, role)` into the session's own
log, `forward target text role` is `partnerDo.sendChatMessage(text, role)`
to the agent named by `target` (`this.state.partner!`, which may be absent),
and `runIntroduction` is the call to `this.onIntroductionChatMessage()`. -/
inductive Effect where
  | selfMessage (text : String) (role : Role)
  | forward (target : Option String) (text : String) (role : Role)
  | runIntroduction
deriving DecidableEq

/-- The `"Please wait..."` acknowledgement text of the waiting state. -/
def pleaseWaitText : String :=
  "Please wait while we find you a partner to chat with..."

/-- Which agent an effect delivers a message to, from the point of view of
the session named `selfName` that runs the handler. -/
def deliversTo (selfName : String) (e : Effect) : Option String :=
  match e with
  | Effect.selfMessage _ _ => some selfName
  | Effect.forward target _ _ => target
  | Effect.runIntroduction => none

/-- `Chat.onChatMessage`, as the list of actions it takes on the last
stored message `m` when the session state is `st`. A `sentFromServer`
message is dropped by the early return. In the `waiting_for_partner` case
the `switch` falls through (no `return`/`break`) into the `chatting` case,
so after the please-wait acknowledgement the handler also forwards the text
to `this.state.partner!` — `st.partner`, which is `none` while waiting. -/
def onChatMessage (st : Session) (m : Msg) : List Effect :=
  if m.sentFromServer then []
  else
    match st.state with
    | Phase.introduction => [Effect.runIntroduction]
    | Phase.waiting_for_partner =>
        [Effect.selfMessage pleaseWaitText Role.assistant,
         Effect.forward st.partner (extractText m) Role.user]
    | Phase.chatting => [Effect.forward st.partner (extractText m) Role.user]

/-- `Chat.sendChatMessage(s, role)`: the stored message, always flagged
`sentFromServer: true`, with a single text part; `genId` and `now` stand
for `generateId()` and `new Date()`. -/
def sendChatMessage (genId : String) (now : Nat) (s : String) (role : Role) :
    Msg :=
  { sentFromServer := true, id := genId, role := role
    parts := [Part.text s], createdAt := now }

/-- `saveMessages([...this.messages, msg])`: the message is appended to the
log, so it becomes the last stored message the recipient's handler sees. -/
def deliver (log : List Msg) (m : Msg) : List Msg :=
  log ++ [m]

/-- C5: a `sentFromServer` message is ignored in every state (no effects at
all); a user-authored message received while `Chatting` with partner `p` is
forwarded with role `"user"` (partner-authored, not system-authored) and
its text intact — a single-text-part message is forwarded verbatim — and
when `p` differs from the session's own name no effect of the handler
delivers anything back to the sender. -/
theorem onChatMessage_ignores_system_and_forwards_in_chatting
    (st : Session) (m : Msg) (p selfName : String) :
    (m.sentFromServer = true → onChatMessage st m = []) ∧
    (m.sentFromServer = false → st.state = Phase.chatting →
      st.partner = some p →
        onChatMessage st m = [Effect.forward (some p) (extractText m) Role.user] ∧
        (p ≠ selfName →
          ∀ e ∈ onChatMessage st m, deliversTo selfName e ≠ some selfName)) := by
  constructor
  · intro hs
    simp [onChatMessage, hs]
  · intro hs hc hp
    have hmain :
        onChatMessage st m = [Effect.forward (some p) (extractText m) Role.user] := by
      simp [onChatMessage, hs, hc, hp]
    refine ⟨hmain, ?_⟩
    intro hne e he
    rw [hmain] at he
    simp only [List.mem_singleton] at he
    subst he
    simp [deliversTo]
    intro h
    exact hne h

/-- Witness for `onChatMessage_ignores_system_and_forwards_in_chatting`: a
session `"A"` chatting with `"B"`: a system-flagged message produces no
effects, and the user message `"hello"` is forwarded to `"B"` as role
`"user"` with its text intact and is not delivered back to `"A"`. -/
theorem onChatMessage_ignores_system_and_forwards_in_chatting_witness :
    onChatMessage ⟨Phase.chatting, some "B"⟩
        ⟨true, "m0", Role.assistant, [Part.text "notice"], 0⟩ = [] ∧
    onChatMessage ⟨Phase.chatting, some "B"⟩
        ⟨false, "m1", Role.user, [Part.text "hello"], 1⟩ =
      [Effect.forward (some "B") "hello" Role.user] := by
  have h₀ := onChatMessage_ignores_system_and_forwards_in_chatting
    ⟨Phase.chatting, some "B"⟩
    ⟨true, "m0", Role.assistant, [Part.text "notice"], 0⟩ "B" "A"
  have h₁ := onChatMessage_ignores_system_and_forwards_in_chatting
    ⟨Phase.chatting, some "B"⟩
    ⟨false, "m1", Role.user, [Part.text "hello"], 1⟩ "B" "A"
  refine ⟨h₀.1 rfl, ?_⟩
  have := (h₁.2 rfl rfl rfl).1
  rw [this]
  simp only [extractText, List.map_cons, List.map_nil]
  decide

/-- C6: the claim fails on the code. A user message received while
`waiting_for_partner` is acknowledged with the please-wait notice, but the
`switch` case has no `return`/`break`, so execution falls through into the
`chatting` branch and the handler also forwards the message text to the
agent named by `this.state.partner!` — which is absent (`none`) in this
state. Something else does happen: a forwarding attempt with no valid
target, contradicting "the message is not forwarded to any other session
and nothing else happens". -/
theorem onChatMessage_waiting_falls_through :
    onChatMessage ⟨Phase.waiting_for_partner, none⟩
        ⟨false, "m2", Role.user, [Part.text "hello"], 2⟩ =
      [Effect.selfMessage pleaseWaitText Role.assistant,
       Effect.forward none "hello" Role.user] := by
  simp [onChatMessage, extractText, String.join]

/-- C10: every message produced by `sendChatMessage` — whatever its role,
including the role-`"user"` relays sent to a partner — is stored with
`sentFromServer: true`; appended to the recipient's log it is that log's
last message, and the recipient's `onChatMessage` takes no action on it in
any state. In particular a relayed chat message is never forwarded onward
again, so no relay loop between two chatting partners can start. -/
theorem sendChatMessage_flagged_and_never_relayed
    (genId : String) (now : Nat) (s : String) (role : Role)
    (st : Session) (log : List Msg) :
    (sendChatMessage genId now s role).sentFromServer = true ∧
    (deliver log (sendChatMessage genId now s role)).getLast? =
      some (sendChatMessage genId now s role) ∧
    onChatMessage st (sendChatMessage genId now s role) = [] := by
  refine ⟨rfl, ?_, by simp [onChatMessage, sendChatMessage]⟩
  simp [deliver]

/-! ## Introduction extraction (`Chat.extractIntroductionData`,
`Chat.introductionComplete`, `Chat.onIntroductionChatMessage`)

The LLM call (`generateText` with `partialIntroductionSchema`) produces a
partial record: each of the four fields is present or absent. The code then
runs `introductionSchema.safeParse` on that output; zod reports one issue
per missing required field, with the issue path naming the field, in schema
declaration order (`firstName`, `lastName`, `age`, `interests`), and the
code maps each issue to the string `` `${path}: ${message}` ``. The field
types of the partial output already match the schema (zod fills fields of
the declared types), so presence of all four fields is exactly
`safeParse` success. -/

/-- The output of the extraction collaborator under
`partialIntroductionSchema`: each required field present or absent. -/
structure PartialIntroductionData where
  firstName : Option String
  lastName : Option String
  age : Option Int
  interests : Option (List String)
deriving DecidableEq

/-- `IntroductionData` (`z.infer<typeof introductionSchema>`): the complete
introduction record. -/
structure IntroductionData where
  firstName : String
  lastName : String
  age : Int
  interests : List String
deriving DecidableEq

/-- The `Result<T, E>` union of `server.ts`. -/
inductive Result (T E : Type) where
  | success (value : T)
  | failure (error : E)
deriving DecidableEq

/-- zod's message for a missing required field (its exact wording is the
library's; only the `path` component in front of it matters to the spec). -/
def zodRequiredMessage : String := "Required"

/-- The issue paths of `introductionSchema.safeParse` on a partial record:
one entry per absent required field, in schema declaration order. -/
def missingFieldNames (p : PartialIntroductionData) : List String :=
  (if p.firstName.isNone then ["firstName"] else []) ++
  (if p.lastName.isNone then ["lastName"] else []) ++
  (if p.age.isNone then ["age"] else []) ++
  (if p.interests.isNone then ["interests"] else [])

/-- `Chat.extractIntroductionData` after the collaborator produced the
partial record `p`: `safeParse` succeeds iff all four fields are present,
and on failure the error is
`zodResult.error.issues.map(issue => issue.path.join(".") + ": " + issue.message)`. -/
def extractIntroductionData (p : PartialIntroductionData) :
    Result IntroductionData (List String) :=
  match p with
  | ⟨some f, some l, some a, some i⟩ => Result.success ⟨f, l, a, i⟩
  | _ =>
    Result.failure
      ((missingFieldNames p).map (fun n => n ++ ": " ++ zodRequiredMessage))

/-- The completion message of `Chat.introductionComplete`. -/
def introductionCompleteText : String :=
  "Good ! Now that I have all your information, you can proceed to access the platform. Welcome aboard!"

/-- What one run of `Chat.onIntroductionChatMessage` does to the session,
as a record: the state it leaves the session in, the `introductionData`
record it persists (if any), the messages it emits into the session's own
log via `sendChatMessage`, and the error list a failed extraction hands to
the follow-up prompt generator. -/
structure IntroStepResult where
  newState : Phase
  persisted : Option IntroductionData
  emitted : List String
  steering : List String
deriving DecidableEq

/-- `Chat.onIntroductionChatMessage` given the collaborator's partial
record: on `safeParse` success, `introductionComplete` emits the completion
message, `setState({ state: "waiting_for_partner" })` (and then calls
`searchPartner`, modelled at system level by `searchPartnerSys`), and
persists the introduction record; on failure the session performs no
`setState` (state stays `introduction`), persists nothing, and streams a
collaborator-generated follow-up steered by the error list. -/
def onIntroductionChatMessage (p : PartialIntroductionData) : IntroStepResult :=
  match extractIntroductionData p with
  | Result.success d =>
    { newState := Phase.waiting_for_partner
      persisted := some d
      emitted := [introductionCompleteText]
      steering := [] }
  | Result.failure errs =>
    { newState := Phase.introduction
      persisted := none
      emitted := []
      steering := errs }

/-- Modelled from the spec: the external extraction collaborator, run on
the conversation consisting only of the user message `"hi"`, fills none of
the four fields (spec §8 scenario; the collaborator itself is an LLM call
outside the embedded code). -/
def hiExtraction : PartialIntroductionData := ⟨none, none, none, none⟩

/-- C7: when the collaborator filled all four fields, the introduction step
persists the introduction record, emits the completion message and moves
the session to `waiting_for_partner`; on the `"hi"` conversation the
collaborator fills nothing, extraction fails, the session stays in
`introduction`, and the unresolved field names carried by the failure are
exactly `["firstName", "lastName", "age", "interests"]` (each reported by
zod as `"<field>: <message>"`). -/
theorem onIntroductionChatMessage_spec :
    (∀ (f l : String) (a : Int) (i : List String),
      onIntroductionChatMessage ⟨some f, some l, some a, some i⟩ =
        { newState := Phase.waiting_for_partner
          persisted := some ⟨f, l, a, i⟩
          emitted := [introductionCompleteText]
          steering := [] }) ∧
    onIntroductionChatMessage hiExtraction =
      { newState := Phase.introduction
        persisted := none
        emitted := []
        steering :=
          ["firstName", "lastName", "age", "interests"].map
            (fun n => n ++ ": " ++ zodRequiredMessage) } ∧
    missingFieldNames hiExtraction = ["firstName", "lastName", "age", "interests"] := by
  refine ⟨?_, by decide, by decide⟩
  intro f l a i
  rfl

/-! ## The per-session state machine (reachable states)

The code writes a session's state in exactly three places:
* `introductionComplete` runs `setState({ state: "waiting_for_partner" })`
  (object with no `partner` field), and is only reached from the
  `introduction` case of the `onChatMessage` switch;
* `searchPartner` runs `this.setState({ state: "chatting", partner: userID })`
  on the caller — which just left `introductionComplete`, i.e. is waiting;
* `searchPartner` runs
  `otherAgent.setState({ state: "chatting", partner: this.name })` on the
  drawn partner, with no precondition on the partner's current state. -/

/-- One `setState` step a session can undergo, at the states the code
performs each write from. -/
inductive SessionStep : Session → Session → Prop where
  | introComplete (s : Session) :
      s.state = Phase.introduction →
      SessionStep s ⟨Phase.waiting_for_partner, none⟩
  | selfPair (s : Session) (p : String) :
      s.state = Phase.waiting_for_partner →
      SessionStep s ⟨Phase.chatting, some p⟩
  | remoteClaim (s : Session) (p : String) :
      SessionStep s ⟨Phase.chatting, some p⟩

/-- The session states reachable from `initialState` by the code's
`setState` calls. -/
def ReachableSession (s : Session) : Prop :=
  Relation.ReflTransGen SessionStep initialState s

/-- C8: in every reachable session state, the `partner` field is present
exactly when the state is `chatting` — the initial state and the waiting
`setState` carry no `partner` field, and each transition into `chatting`
stores exactly the one drawn partner (the field holds a single identifier,
so no session ever has two simultaneous partners). -/
theorem reachable_partner_iff_chatting (s : Session)
    (h : ReachableSession s) :
    (s.partner.isSome = true ↔ s.state = Phase.chatting) ∧
    ∀ p q : String, s.partner = some p → s.partner = some q → p = q := by
  induction h with
  | refl => exact ⟨by simp [initialState], by simp [initialState]⟩
  | tail _ step _ =>
    cases step with
    | introComplete hs => exact ⟨by simp, by simp⟩
    | selfPair p hs =>
      refine ⟨by simp, ?_⟩
      intro a b ha hb
      cases ha
      cases hb
      rfl
    | remoteClaim p =>
      refine ⟨by simp, ?_⟩
      intro a b ha hb
      cases ha
      cases hb
      rfl

/-- Witness for `reachable_partner_iff_chatting`: the state
`{ state: "chatting", partner: "B" }`, reached by completing the
introduction and then pairing with `"B"`, has its partner present and is
chatting. -/
theorem reachable_partner_iff_chatting_witness :
    ((⟨Phase.chatting, some "B"⟩ : Session).partner.isSome = true ↔
      (⟨Phase.chatting, some "B"⟩ : Session).state = Phase.chatting) :=
  (reachable_partner_iff_chatting ⟨Phase.chatting, some "B"⟩
    (Relation.ReflTransGen.tail
      (Relation.ReflTransGen.tail Relation.ReflTransGen.refl
        (SessionStep.introComplete initialState rfl))
      (SessionStep.selfPair ⟨Phase.waiting_for_partner, none⟩ "B" rfl))).1

end Meetup
